import Mathlib

/-!
Shallow embedding of `server.go` from em-zhang/dynamodb-server: an HTTP
service with two endpoints (`/list`, `/deactivate`) over a DynamoDB table.

Modelling conventions:
* Bytes are `Nat` (values < 256 in practice); a Go `[]byte` is `List Nat`.
* The DynamoDB table is a list of rows plus a flag modelling a transport
  failure of the Scan API (claim C6); Get/Update are modelled as reliable.
* `fmt.Fprint` / `http.Error` output is modelled as a list of output chunks:
  plain text, a JSON-marshalled item, or a JSON-marshalled item list
  (`none` standing for Go's `nil` slice, which marshals to `null`).
* The per-request parameter fields that the Go code stores on the shared
  `Server` struct (`tableName`, `name`, `status`, `active`, `index`) are the
  `ServerState` record, threaded explicitly through the handlers.
* Store API calls are recorded in an operation log so that theorems can
  speak about which scan/get/update calls a request issued.
* A `/deactivate` result carries an `Option Response`: `none` models a
  handler panic, which `net/http` recovers by closing the connection
  without sending any response.
-/

namespace DynamoServer

/-- Go struct `Item` (server.go lines 38-43): a row of the DynamoDB table.
`Index []byte` is the key, `Users []string` the user list. -/
structure Item where
  index  : List Nat
  name   : String
  users  : List String
  active : Bool
deriving DecidableEq, Repr

/-- The zero value of Go's `Item` struct: nil key, empty name, nil users,
`Active = false`. `dynamodbattribute.UnmarshalMap` of an empty attribute map
(the GetItem result for an absent key) leaves the target at this value. -/
def zeroItem : Item := ⟨[], "", [], false⟩

/-- The DynamoDB table reached through the SDK client, plus a flag modelling
a transport failure of the `Scan` API call (the SDK then returns an error
together with an allocated zero-value `ScanOutput`, whose `Items` is nil). -/
structure DB where
  items   : List Item
  scanErr : Bool
deriving DecidableEq, Repr

/-- The mutable per-request parameter fields of Go struct `Server`
(server.go lines 30-34): `tableName`, `name`, `status`, `active`, `index`.
The Go handlers write these onto the shared `Server` value; here the record
is passed in and the possibly-updated record is returned. -/
structure ServerState where
  tableName : String
  name      : String
  status    : String
  active    : Bool
  index     : List Nat
deriving DecidableEq, Repr

/-- An incoming HTTP request: path, method, and URL query parameters. -/
structure HttpRequest where
  path   : String
  method : String
  query  : List (String × String)
deriving DecidableEq, Repr

/-- Go's `r.URL.Query().Get(k)`: the first value for key `k`, or the empty
string when the parameter is absent. -/
def getQuery (r : HttpRequest) (k : String) : String :=
  match r.query.find? (fun p => p.1 == k) with
  | some p => p.2
  | none => ""

/-- The filter predicates the Query Builder can construct
(`expression.ConditionBuilder` values built in `DynamoDBQuery`,
server.go lines 92-101). -/
inductive Pred where
  | nameEq   (n : String)
  | activeEq (b : Bool)
  | and      (p q : Pred)
deriving DecidableEq, Repr

/-- Evaluation of a filter predicate on a row, as DynamoDB applies the
`FilterExpression` during a `Scan`. -/
def evalPred : Pred → Item → Bool
  | .nameEq n, it => it.name == n
  | .activeEq b, it => it.active == b
  | .and p q, it => evalPred p it && evalPred q it

/-- A scan with an optional filter: `none` models a nil `FilterExpression`
(unfiltered scan). -/
def matchFilt (f : Option Pred) (it : Item) : Bool :=
  match f with
  | none => true
  | some p => evalPred p it

/-- One chunk of the HTTP response body, as written by `fmt.Fprint` /
`http.Error`: plain text, the indented JSON of one item, or the indented
JSON of an item list (`none` = Go nil slice, rendered `null`). -/
inductive Out where
  | text     (s : String)
  | itemJSON (it : Item)
  | listJSON (xs : Option (List Item))
deriving DecidableEq, Repr

/-- An HTTP response: status code and body chunks. Plain `fmt.Fprint`
writes leave the default status 200. -/
structure Response where
  status : Nat
  body   : List Out
deriving DecidableEq, Repr

/-- A store API call issued while handling a request. -/
inductive StoreOp where
  | scanAll      (tableName : String)
  | scanFiltered (tableName : String) (filt : Option Pred)
  | getOne       (tableName : String) (key : List Nat)
  | updateOne    (tableName : String) (key : List Nat)
deriving DecidableEq, Repr

/-- Is this store call a mutation (an `UpdateItem`)? -/
def isUpdate : StoreOp → Bool
  | .updateOne _ _ => true
  | _ => false

/-! ### Base64 decoding of the `index` parameter

`DeactivateHandler` (server.go lines 286-305) turns the `index` query string
into the key bytes by `json.Marshal` of the string followed by
`json.Unmarshal` into `[]byte`.  The marshal step produces the JSON string
literal for the parameter and the unmarshal step parses that literal back to
the identical string, so the escaping cancels; Go's `encoding/json` then
decodes a JSON string into `[]byte` using base64 (`base64.StdEncoding`,
padded alphabet, `\r`/`\n` ignored).  The round trip therefore equals
standard base64 decoding of the parameter, failing on invalid input. -/

/-- The 6-bit value of a standard-base64 alphabet character. -/
def b64Val (c : Char) : Option Nat :=
  if 'A' ≤ c ∧ c ≤ 'Z' then some (c.toNat - 65)
  else if 'a' ≤ c ∧ c ≤ 'z' then some (c.toNat - 97 + 26)
  else if '0' ≤ c ∧ c ≤ '9' then some (c.toNat - 48 + 52)
  else if c = '+' then some 62
  else if c = '/' then some 63
  else none

/-- Decode one 4-character base64 quantum into 1-3 bytes; `'='` padding is
allowed only in the last one or two positions. -/
def b64Quantum (a b c d : Char) : Option (List Nat) :=
  match b64Val a, b64Val b with
  | some va, some vb =>
    if c = '=' then
      if d = '=' then some [va * 4 + vb / 16] else none
    else
      match b64Val c with
      | some vc =>
        if d = '=' then some [va * 4 + vb / 16, (vb % 16) * 16 + vc / 4]
        else
          match b64Val d with
          | some vd => some [va * 4 + vb / 16, (vb % 16) * 16 + vc / 4, (vc % 4) * 64 + vd]
          | none => none
      | none => none
  | _, _ => none

/-- Decode a base64 character stream quantum by quantum.  The length must be
a multiple of 4 and padding may appear only in the final quantum. -/
def b64Chunks : List Char → Option (List Nat)
  | [] => some []
  | a :: b :: c :: d :: rest =>
    match b64Quantum a b c d with
    | some bytes =>
      if rest.isEmpty then some bytes
      else if c = '=' ∨ d = '=' then none
      else
        match b64Chunks rest with
        | some more => some (bytes ++ more)
        | none => none
    | none => none
  | _ => none

/-- Go `base64.StdEncoding` decoding as used by `encoding/json` for `[]byte`
targets: `\r` and `\n` are ignored, everything else must be valid padded
base64. -/
def base64StdDecode (s : String) : Option (List Nat) :=
  b64Chunks (s.data.filter (fun c => c ≠ '\r' ∧ c ≠ '\n'))

/-- The key bytes `DeactivateHandler` derives from the `index` query
parameter (server.go lines 286-302): `json.Marshal` of the string then
`json.Unmarshal` into `[]byte`, which composes to base64 decoding of the
parameter; `none` models the unmarshal error path (lines 296-302). -/
def indexBytesOfString (s : String) : Option (List Nat) :=
  base64StdDecode s

/-! ### Store calls (methods on `Server`) -/

/-- `DynamoDBList` (server.go lines 46-69): unfiltered Scan of the table.
On a Scan transport error it logs and returns `(nil, err)`; the nil slice is
modelled as `none`. -/
def dynamoDBList (s : ServerState) (db : DB) : Option (List Item) × List StoreOp :=
  ((if db.scanErr then none else some db.items), [.scanAll s.tableName])

/-- `DynamoDBQuery` (server.go lines 72-136).  First mutates `s.active` from
`s.status` (lines 77-84), then builds the filter predicate (lines 92-101; an
unset builder yields a build error that is only logged, leaving a nil
`FilterExpression`, i.e. an unfiltered scan), then Scans.  On a Scan
transport error the code logs and continues with the SDK's zero-value
output, so unmarshalling yields the empty (non-nil) slice. -/
def dynamoDBQuery (s : ServerState) (db : DB) :
    ServerState × Option (List Item) × List StoreOp :=
  let s1 :=
    if s.status ≠ "" then
      if s.status = "active" then { s with active := true }
      else if s.status = "inactive" then { s with active := false }
      else s
    else s
  let filt : Option Pred :=
    if s1.name ≠ "" ∧ s1.status ≠ "" then
      some (.and (.nameEq s1.name) (.activeEq s1.active))
    else if s1.name ≠ "" ∧ s1.status = "" then
      some (.nameEq s1.name)
    else if s1.name = "" ∧ s1.status ≠ "" then
      some (.activeEq s1.active)
    else none
  let scanned : List Item :=
    if db.scanErr then [] else db.items.filter (matchFilt filt)
  (s1, some scanned, [.scanFiltered s1.tableName filt])

/-- `DynamoDBGetItem` (server.go lines 198-220): GetItem by the key held in
`s.index`.  An absent key gives an empty attribute map, which unmarshals to
the zero `Item`. -/
def dynamoDBGetItem (s : ServerState) (db : DB) : Item × List StoreOp :=
  match db.items.find? (fun it => it.index == s.index) with
  | some it => (it, [.getOne s.tableName s.index])
  | none => (zeroItem, [.getOne s.tableName s.index])

/-- `DynamoDBDeactivate` (server.go lines 223-257): UpdateItem with
`set active = :active` (`:active = false`) and `ReturnValues: ALL_NEW`.
DynamoDB's UpdateItem upserts: an absent key creates a row holding only the
key and the set attribute; `ALL_NEW` returns the post-update row. -/
def dynamoDBDeactivate (s : ServerState) (db : DB) :
    DB × Item × List StoreOp :=
  match db.items.find? (fun it => it.index == s.index) with
  | some it =>
    ({ db with
        items := db.items.map
          (fun j => if j.index == s.index then { j with active := false } else j) },
      { it with active := false },
      [.updateOne s.tableName s.index])
  | none =>
    ({ db with items := db.items ++ [{ zeroItem with index := s.index }] },
      { zeroItem with index := s.index },
      [.updateOne s.tableName s.index])

/-! ### Handlers -/

/-- Result of handling a `/list` request: the server state after the request
(the Go handler stores request parameters on the shared `Server`), the
response, and the store calls issued. -/
structure ListResult where
  server : ServerState
  resp   : Response
  ops    : List StoreOp
deriving DecidableEq, Repr

/-- `ListHandler` (server.go lines 139-195).  Path must be `/list`, method
GET, else `http.Error` with 404.  Resets the parameter fields on the shared
`Server`, stores `tableName`/`name`/validated `status` there, then queries
(if `name` or `status` set) or lists.  The store error (if any) is discarded
(line 180/182 `resp, _ =`); the result is marshalled and written, leaving
the default 200 status. -/
def listHandler (s : ServerState) (db : DB) (r : HttpRequest) : ListResult :=
  if r.path ≠ "/list" then
    ⟨s, ⟨404, [.text "404 not found.\n"]⟩, []⟩
  else if r.method ≠ "GET" then
    ⟨s, ⟨404, [.text "404 not found, method not supported.\n"]⟩, []⟩
  else
    let s1 := { s with tableName := "", name := "", status := "", active := false }
    let s2 := { s1 with tableName := getQuery r "tableName" }
    let param2 := getQuery r "name"
    let s3 := if param2 ≠ "" then { s2 with name := param2 } else s2
    let param3 := getQuery r "status"
    let s4 :=
      if param3 = "active" ∨ param3 = "inactive" then { s3 with status := param3 } else s3
    if s4.name ≠ "" ∨ s4.status ≠ "" then
      let (s5, resp, ops) := dynamoDBQuery s4 db
      ⟨s5, ⟨200, [.listJSON resp]⟩, ops⟩
    else
      let (resp, ops) := dynamoDBList s4 db
      ⟨s4, ⟨200, [.listJSON resp]⟩, ops⟩

/-- The fixed message written on the already-inactive path
(server.go line 319). -/
def alreadyInactiveMsg : String :=
  "The deactivate request failed: Specified entry is already inactive \n"

/-- The fixed message written on the successful-deactivation path
(server.go line 335). -/
def deactivateSuccessMsg : String :=
  "Successfully deactivated the specified entry, setting active status to false: \n"

/-- Result of handling a `/deactivate` request: server state after the
request, table state after the request, response, and store calls issued.
`resp = none` models a handler panic: `net/http` recovers it and closes the
connection, so no response at all is sent to the client. -/
structure DeactResult where
  server : ServerState
  db     : DB
  resp   : Option Response
  ops    : List StoreOp
deriving DecidableEq, Repr

/-- `DeactivateHandler` (server.go lines 260-339).  Path must be
`/deactivate`, method POST, else 404.  Resets `tableName`/`index` on the
shared `Server`, stores `tableName`.  If `index` is empty the body of the
`if` is skipped and the handler returns with an empty 200.  Otherwise the
JSON round trip decodes the key; when `json.Unmarshal` fails (invalid
base64), the error branch at line 299 calls `err.Error()` on `err` — the
result of `json.Marshal` at line 288, which is necessarily nil there — a
nil-interface dereference that panics; `net/http` recovers the panic and
closes the connection without sending any response (`resp = none`).  On a
successful decode, GetItem fetches the current row, and either the
already-inactive message plus the current row is written (no mutation) or
UpdateItem runs and the success message plus the updated row is written. -/
def deactivateHandler (s : ServerState) (db : DB) (r : HttpRequest) : DeactResult :=
  if r.path ≠ "/deactivate" then
    ⟨s, db, some ⟨404, [.text "404 not found.\n"]⟩, []⟩
  else if r.method ≠ "POST" then
    ⟨s, db, some ⟨404, [.text "404 not found, method not supported.\n"]⟩, []⟩
  else
    let s1 := { s with tableName := "", index := [] }
    let s2 := { s1 with tableName := getQuery r "tableName" }
    let param2 := getQuery r "index"
    if param2 ≠ "" then
      match indexBytesOfString param2 with
      | none => ⟨s2, db, none, []⟩
      | some indexByte =>
        let s3 := { s2 with index := indexByte }
        let (currEntry, getOps) := dynamoDBGetItem s3 db
        if ¬ currEntry.active then
          ⟨s3, db, some ⟨200, [.text alreadyInactiveMsg, .itemJSON currEntry]⟩, getOps⟩
        else
          let (db2, updated, updOps) := dynamoDBDeactivate s3 db
          ⟨s3, db2,
            some ⟨200, [.text deactivateSuccessMsg, .itemJSON updated]⟩,
            getOps ++ updOps⟩
    else
      ⟨s2, db, some ⟨200, []⟩, []⟩

/-- Request dispatch: `main` registers `/list` and `/deactivate` as exact
patterns on `net/http`'s `DefaultServeMux`, which routes an exact-match path
to its handler and answers any other path with a plain-text 404. -/
def serve (s : ServerState) (db : DB) (r : HttpRequest) : DeactResult :=
  if r.path = "/list" then
    let res := listHandler s db r
    ⟨res.server, db, some res.resp, res.ops⟩
  else if r.path = "/deactivate" then
    deactivateHandler s db r
  else
    ⟨s, db, some ⟨404, [.text "404 page not found\n"]⟩, []⟩

/-! ### Concrete scenario values (spec section 8) -/

/-- The all-empty initial `Server` parameter state (Go zero value). -/
def initState : ServerState := ⟨"", "", "", false, []⟩

/-- Row A of the spec's scenario: key the byte of `"A"`, name `foo`,
active. -/
def rowA : Item := ⟨[65], "foo", [], true⟩

/-- A table holding only row A, with a healthy store. -/
def dbRowA : DB := ⟨[rowA], false⟩

/-- `POST /deactivate?tableName=T&index=A`, the spec scenario's request. -/
def reqIndexA : HttpRequest :=
  ⟨"/deactivate", "POST", [("tableName", "T"), ("index", "A")]⟩

/-- `POST /deactivate?tableName=T&index=QQ==`: the index parameter is the
base64 encoding of row A's key byte `0x41`. -/
def reqIndexQQ : HttpRequest :=
  ⟨"/deactivate", "POST", [("tableName", "T"), ("index", "QQ==")]⟩

/-! ### Claim C1 -/

/-- C1 counterexample: on a table whose row A has key `0x41` (the byte of
`"A"`) and `active = true`, the request
`POST /deactivate?tableName=T&index=A` does NOT mutate row A and does NOT
return it: the JSON round trip base64-decodes the index string, `"A"` is
not valid base64, and in the resulting `json.Unmarshal` error branch the
code calls `err.Error()` on the nil marshal error (server.go line 299) and
panics — `net/http` closes the connection with no response (`resp = none`),
the table is unchanged, and no store call is issued — contradicting the
claimed mutation and response. -/
theorem claim1_counterexample :
    (deactivateHandler initState dbRowA reqIndexA).db = dbRowA ∧
    (deactivateHandler initState dbRowA reqIndexA).ops = [] ∧
    (deactivateHandler initState dbRowA reqIndexA).resp = none := by
  refine ⟨rfl, rfl, rfl⟩

/-- C1 amended: the index string is interpreted as the base64 encoding of
the key bytes (via the JSON round trip), so the encoding maps `"QQ=="` —
not `"A"` — to row A's key `0x41`.  With `index=A` the base64 decode fails
and the handler panics (`err.Error()` on the nil marshal error, server.go
line 299): the connection is closed with no response and no mutation.  With
`index=QQ==`, `POST /deactivate?tableName=T&index=QQ==` mutates row A to
`active = false` (exactly one update call) and returns it with the success
message; a second identical request returns the same row with the
already-inactive message and performs no mutation. -/
theorem claim1_amended :
    (deactivateHandler initState dbRowA reqIndexA).resp = none ∧
    (deactivateHandler initState dbRowA reqIndexA).db = dbRowA ∧
    (deactivateHandler initState dbRowA reqIndexA).ops = [] ∧
    (deactivateHandler initState dbRowA reqIndexQQ).db.items
        = [{ rowA with active := false }] ∧
    (deactivateHandler initState dbRowA reqIndexQQ).resp
        = some ⟨200, [.text deactivateSuccessMsg, .itemJSON { rowA with active := false }]⟩ ∧
    ((deactivateHandler initState dbRowA reqIndexQQ).ops.filter isUpdate).length = 1 ∧
    (deactivateHandler (deactivateHandler initState dbRowA reqIndexQQ).server
        (deactivateHandler initState dbRowA reqIndexQQ).db reqIndexQQ).db
        = (deactivateHandler initState dbRowA reqIndexQQ).db ∧
    (deactivateHandler (deactivateHandler initState dbRowA reqIndexQQ).server
        (deactivateHandler initState dbRowA reqIndexQQ).db reqIndexQQ).resp
        = some ⟨200, [.text alreadyInactiveMsg, .itemJSON { rowA with active := false }]⟩ ∧
    ((deactivateHandler (deactivateHandler initState dbRowA reqIndexQQ).server
        (deactivateHandler initState dbRowA reqIndexQQ).db reqIndexQQ).ops.filter
        isUpdate) = [] := by
  refine ⟨rfl, rfl, rfl, rfl, rfl, rfl, rfl, rfl, rfl⟩

/-! ### Claims C2 and C3 -/

/-- An empty table with a healthy store. -/
def dbEmpty : DB := ⟨[], false⟩

/-- C2: for every combination of the optional `name` and `status`
parameters on a `GET /list` request, the Query Builder produces exactly the
predicate of spec section 4.2: both present gives
`name == n AND active == (status == "active")`; only `name` gives
`name == n`; only `status` gives `active == (status == "active")`; neither
present gives no predicate and a full, unfiltered scan is performed
instead. -/
theorem claim2_query_builder (s : ServerState) (db : DB) (r : HttpRequest)
    (t n st : String)
    (hp : r.path = "/list") (hm : r.method = "GET")
    (ht : getQuery r "tableName" = t)
    (hn : getQuery r "name" = n)
    (hst : getQuery r "status" = st) :
    (n ≠ "" ∧ st = "active" →
      (listHandler s db r).ops
        = [.scanFiltered t (some (.and (.nameEq n) (.activeEq true)))]) ∧
    (n ≠ "" ∧ st = "inactive" →
      (listHandler s db r).ops
        = [.scanFiltered t (some (.and (.nameEq n) (.activeEq false)))]) ∧
    (n ≠ "" ∧ st = "" →
      (listHandler s db r).ops = [.scanFiltered t (some (.nameEq n))]) ∧
    (n = "" ∧ st = "active" →
      (listHandler s db r).ops = [.scanFiltered t (some (.activeEq true))]) ∧
    (n = "" ∧ st = "inactive" →
      (listHandler s db r).ops = [.scanFiltered t (some (.activeEq false))]) ∧
    (n = "" ∧ st = "" →
      (listHandler s db r).ops = [.scanAll t]) := by
  subst ht hn hst
  refine ⟨?_, ?_, ?_, ?_, ?_, ?_⟩ <;> rintro ⟨h1, h2⟩ <;>
    simp [listHandler, dynamoDBQuery, dynamoDBList, hp, hm, h1, h2]

/-- C2 witness: with both parameters present
(`GET /list?tableName=T&name=alice&status=active`) the handler issues
exactly the combined-predicate filtered scan. -/
theorem claim2_witness :
    (listHandler initState dbEmpty
        ⟨"/list", "GET", [("tableName", "T"), ("name", "alice"), ("status", "active")]⟩).ops
      = [.scanFiltered "T" (some (.and (.nameEq "alice") (.activeEq true)))] :=
  (claim2_query_builder initState dbEmpty
      ⟨"/list", "GET", [("tableName", "T"), ("name", "alice"), ("status", "active")]⟩
      "T" "alice" "active" rfl rfl rfl rfl rfl).1 ⟨by decide, rfl⟩

/-- C3: a `status` parameter whose value is not exactly `"active"` or
`"inactive"` is treated as absent on every `/list` request: the response is
a 200 (no error), the filter gains no active-status component (with `name`
present the predicate is only `name == n`), and with `name` also absent the
handler performs a full unfiltered scan. -/
theorem claim3_invalid_status (s : ServerState) (db : DB) (r : HttpRequest)
    (hp : r.path = "/list") (hm : r.method = "GET")
    (hbad1 : getQuery r "status" ≠ "active")
    (hbad2 : getQuery r "status" ≠ "inactive") :
    (listHandler s db r).resp.status = 200 ∧
    (getQuery r "name" ≠ "" →
      (listHandler s db r).ops
        = [.scanFiltered (getQuery r "tableName")
            (some (.nameEq (getQuery r "name")))]) ∧
    (getQuery r "name" = "" →
      (listHandler s db r).ops = [.scanAll (getQuery r "tableName")]) := by
  by_cases hname : getQuery r "name" = "" <;>
    refine ⟨?_, fun h1 => ?_, fun h2 => ?_⟩ <;>
      simp_all [listHandler, dynamoDBQuery, dynamoDBList, hp, hm]

/-- C3 witness: `GET /list?tableName=T&status=bogus` returns 200 and
performs the full unfiltered scan. -/
theorem claim3_witness :
    (listHandler initState dbEmpty
        ⟨"/list", "GET", [("tableName", "T"), ("status", "bogus")]⟩).resp.status = 200 ∧
    (listHandler initState dbEmpty
        ⟨"/list", "GET", [("tableName", "T"), ("status", "bogus")]⟩).ops
      = [.scanAll "T"] := by
  have h := claim3_invalid_status initState dbEmpty
    ⟨"/list", "GET", [("tableName", "T"), ("status", "bogus")]⟩
    rfl rfl (by decide) (by decide)
  exact ⟨h.1, h.2.2 rfl⟩

/-! ### Claims C4, C5, C9, C10 (deactivate paths) -/

/-- C4: a deactivate request whose key resolves to an item with
`active = false` issues no update (the table is unchanged and the op log
holds no mutation) and responds 200 with the fixed already-inactive message
followed by the current item's JSON. -/
theorem claim4_already_inactive (s : ServerState) (db : DB) (r : HttpRequest)
    (key : List Nat) (it : Item)
    (hp : r.path = "/deactivate") (hm : r.method = "POST")
    (hne : getQuery r "index" ≠ "")
    (hdec : indexBytesOfString (getQuery r "index") = some key)
    (hfind : db.items.find? (fun j => j.index == key) = some it)
    (hact : it.active = false) :
    (deactivateHandler s db r).db = db ∧
    (deactivateHandler s db r).ops.filter isUpdate = [] ∧
    (deactivateHandler s db r).resp
      = some ⟨200, [.text alreadyInactiveMsg, .itemJSON it]⟩ := by
  simp [deactivateHandler, dynamoDBGetItem, hp, hm, hne, hdec, hfind, hact, isUpdate]

/-- C4 witness: deactivating the already-inactive row with key `0x41`
(index parameter `QQ==`, its base64 encoding) leaves the table unchanged,
performs no update, and returns the message plus the row. -/
theorem claim4_witness :
    (deactivateHandler initState ⟨[⟨[65], "bar", [], false⟩], false⟩ reqIndexQQ).db
      = ⟨[⟨[65], "bar", [], false⟩], false⟩ ∧
    (deactivateHandler initState ⟨[⟨[65], "bar", [], false⟩], false⟩ reqIndexQQ).ops.filter
      isUpdate = [] ∧
    (deactivateHandler initState ⟨[⟨[65], "bar", [], false⟩], false⟩ reqIndexQQ).resp
      = some ⟨200, [.text alreadyInactiveMsg, .itemJSON ⟨[65], "bar", [], false⟩]⟩ :=
  claim4_already_inactive initState ⟨[⟨[65], "bar", [], false⟩], false⟩ reqIndexQQ
    [65] ⟨[65], "bar", [], false⟩ rfl rfl (by decide) rfl rfl rfl

/-- C5: a deactivate request whose key resolves to an item with
`active = true` issues exactly one update call (the op log is one GetItem
followed by one UpdateItem), the table afterwards holds that row with
`active = false`, and the response is 200 with the success message plus the
updated item's JSON in which `active = false`. -/
theorem claim5_deactivates (s : ServerState) (db : DB) (r : HttpRequest)
    (key : List Nat) (it : Item)
    (hp : r.path = "/deactivate") (hm : r.method = "POST")
    (hne : getQuery r "index" ≠ "")
    (hdec : indexBytesOfString (getQuery r "index") = some key)
    (hfind : db.items.find? (fun j => j.index == key) = some it)
    (hact : it.active = true) :
    (deactivateHandler s db r).ops
      = [.getOne (getQuery r "tableName") key,
         .updateOne (getQuery r "tableName") key] ∧
    ((deactivateHandler s db r).ops.filter isUpdate).length = 1 ∧
    (deactivateHandler s db r).db.items
      = db.items.map (fun j => if j.index == key then { j with active := false } else j) ∧
    (deactivateHandler s db r).resp
      = some ⟨200, [.text deactivateSuccessMsg, .itemJSON { it with active := false }]⟩ := by
  simp [deactivateHandler, dynamoDBGetItem, dynamoDBDeactivate, hp, hm, hne, hdec,
    hfind, hact, isUpdate]

/-- C5 witness: deactivating the active row with key `0x41` (index
parameter `QQ==`) issues one GetItem and one UpdateItem, flips the row to
inactive, and returns the success message plus the updated row. -/
theorem claim5_witness :
    (deactivateHandler initState dbRowA reqIndexQQ).ops
      = [.getOne "T" [65], .updateOne "T" [65]] ∧
    ((deactivateHandler initState dbRowA reqIndexQQ).ops.filter isUpdate).length = 1 ∧
    (deactivateHandler initState dbRowA reqIndexQQ).db.items
      = [rowA].map (fun j => if j.index == [65] then { j with active := false } else j) ∧
    (deactivateHandler initState dbRowA reqIndexQQ).resp
      = some ⟨200, [.text deactivateSuccessMsg, .itemJSON { rowA with active := false }]⟩ :=
  claim5_deactivates initState dbRowA reqIndexQQ [65] rowA
    rfl rfl (by decide) rfl rfl rfl

/-- C9: a `POST /deactivate` request whose `index` parameter is absent or
empty performs no store call and no mutation and returns an empty 200
body. -/
theorem claim9_missing_index (s : ServerState) (db : DB) (r : HttpRequest)
    (hp : r.path = "/deactivate") (hm : r.method = "POST")
    (hix : getQuery r "index" = "") :
    (deactivateHandler s db r).db = db ∧
    (deactivateHandler s db r).ops = [] ∧
    (deactivateHandler s db r).resp = some ⟨200, []⟩ := by
  simp [deactivateHandler, hp, hm, hix]

/-- C9 witness: `POST /deactivate?tableName=T` (no index) does nothing and
returns an empty 200 body. -/
theorem claim9_witness :
    (deactivateHandler initState dbRowA
        ⟨"/deactivate", "POST", [("tableName", "T")]⟩).db = dbRowA ∧
    (deactivateHandler initState dbRowA
        ⟨"/deactivate", "POST", [("tableName", "T")]⟩).ops = [] ∧
    (deactivateHandler initState dbRowA
        ⟨"/deactivate", "POST", [("tableName", "T")]⟩).resp = some ⟨200, []⟩ :=
  claim9_missing_index initState dbRowA
    ⟨"/deactivate", "POST", [("tableName", "T")]⟩ rfl rfl rfl

/-- C10: a deactivate request whose key is absent from the table gets the
zero `Item` (whose active flag is false) from the lookup, so the handler
takes the already-inactive path: no update is issued, the table is
unchanged, and the response is 200 with the already-inactive message plus
the zero item's JSON — indistinguishable at the public interface from an
existing inactive item. -/
theorem claim10_absent_key (s : ServerState) (db : DB) (r : HttpRequest)
    (key : List Nat)
    (hp : r.path = "/deactivate") (hm : r.method = "POST")
    (hne : getQuery r "index" ≠ "")
    (hdec : indexBytesOfString (getQuery r "index") = some key)
    (habsent : db.items.find? (fun j => j.index == key) = none) :
    (deactivateHandler s db r).db = db ∧
    (deactivateHandler s db r).ops.filter isUpdate = [] ∧
    (deactivateHandler s db r).resp
      = some ⟨200, [.text alreadyInactiveMsg, .itemJSON zeroItem]⟩ := by
  simp [deactivateHandler, dynamoDBGetItem, hp, hm, hne, hdec, habsent, isUpdate,
    zeroItem]

/-- C10 witness: deactivating key `0x41` (index `QQ==`) on an empty table
performs no update and returns the already-inactive message plus the zero
item. -/
theorem claim10_witness :
    (deactivateHandler initState dbEmpty reqIndexQQ).db = dbEmpty ∧
    (deactivateHandler initState dbEmpty reqIndexQQ).ops.filter isUpdate = [] ∧
    (deactivateHandler initState dbEmpty reqIndexQQ).resp
      = some ⟨200, [.text alreadyInactiveMsg, .itemJSON zeroItem]⟩ :=
  claim10_absent_key initState dbEmpty reqIndexQQ [65] rfl rfl (by decide) rfl rfl

/-! ### Claim C6 -/

/-- C6: when the store scan fails, a valid `GET /list` request still
terminates normally with a 200 response whose body renders whatever the
store methods returned: the nil slice (rendered `null`) on the unfiltered
path, or the empty slice (rendered `[]`) on the filtered path.  The store
error is never surfaced as an HTTP error status. -/
theorem claim6_scan_error_best_effort (s : ServerState) (db : DB) (r : HttpRequest)
    (hp : r.path = "/list") (hm : r.method = "GET")
    (herr : db.scanErr = true) :
    (listHandler s db r).resp.status = 200 ∧
    ((listHandler s db r).resp.body = [.listJSON none] ∨
     (listHandler s db r).resp.body = [.listJSON (some [])]) := by
  by_cases h2 : getQuery r "name" = "" <;>
    by_cases h3 : getQuery r "status" = "active" <;>
      by_cases h4 : getQuery r "status" = "inactive" <;>
        simp_all [listHandler, dynamoDBQuery, dynamoDBList, hp, hm, herr]

/-- C6 witness: `GET /list?tableName=T` against a failing store returns a
200 whose body renders the nil slice. -/
theorem claim6_witness :
    (listHandler initState ⟨[], true⟩
        ⟨"/list", "GET", [("tableName", "T")]⟩).resp.status = 200 ∧
    ((listHandler initState ⟨[], true⟩
        ⟨"/list", "GET", [("tableName", "T")]⟩).resp.body = [.listJSON none] ∨
     (listHandler initState ⟨[], true⟩
        ⟨"/list", "GET", [("tableName", "T")]⟩).resp.body = [.listJSON (some [])]) :=
  claim6_scan_error_best_effort initState ⟨[], true⟩
    ⟨"/list", "GET", [("tableName", "T")]⟩ rfl rfl rfl

/-! ### Claim C7 -/

/-- `GET /list?tableName=T&name=alice`, used to exhibit the shared-state
write. -/
def reqListAlice : HttpRequest :=
  ⟨"/list", "GET", [("tableName", "T"), ("name", "alice")]⟩

/-- C7 counterexample: handling a request DOES write per-request data to
state shared across requests.  Starting from the zero `Server` parameter
state, handling `GET /list?tableName=T&name=alice` leaves the request's
`tableName` and `name` stored on the shared `Server` struct after the
request completes, so the per-request fields do not live on request-scoped
values. -/
theorem claim7_counterexample :
    (listHandler initState dbEmpty reqListAlice).server ≠ initState ∧
    (listHandler initState dbEmpty reqListAlice).server.tableName = "T" ∧
    (listHandler initState dbEmpty reqListAlice).server.name = "alice" := by
  refine ⟨by decide, rfl, rfl⟩

/-- C7 amended: handling a request writes the per-request parameters onto
the shared `Server` struct — for every valid `GET /list` request the
request's `tableName` (and, when present, `name`) remain stored on the
server state after the request — so the service does hold in-process
mutable shared state beyond the long-lived store session. -/
theorem claim7_amended (s : ServerState) (db : DB) (r : HttpRequest)
    (hp : r.path = "/list") (hm : r.method = "GET") :
    (listHandler s db r).server.tableName = getQuery r "tableName" ∧
    (getQuery r "name" ≠ "" →
      (listHandler s db r).server.name = getQuery r "name") := by
  by_cases h2 : getQuery r "name" = "" <;>
    by_cases h3 : getQuery r "status" = "active" <;>
      by_cases h4 : getQuery r "status" = "inactive" <;>
        refine ⟨?_, fun hn => ?_⟩ <;>
          simp_all [listHandler, dynamoDBQuery, dynamoDBList, hp, hm]

/-- C7 amended witness: after `GET /list?tableName=T&name=alice` the shared
server state holds that request's parameters. -/
theorem claim7_amended_witness :
    (listHandler initState dbEmpty reqListAlice).server.tableName = "T" ∧
    (listHandler initState dbEmpty reqListAlice).server.name = "alice" := by
  have h := claim7_amended initState dbEmpty reqListAlice rfl rfl
  exact ⟨h.1, h.2 (by decide)⟩

/-! ### Claim C8 -/

/-- C8: a `/list` request with a method other than GET, a `/deactivate`
request with a method other than POST, and a request to any other path all
receive a 404 response with a plain-text body. -/
theorem claim8_not_found (s : ServerState) (db : DB) (r : HttpRequest) :
    (r.path = "/list" → r.method ≠ "GET" →
      (serve s db r).resp
        = some ⟨404, [.text "404 not found, method not supported.\n"]⟩) ∧
    (r.path = "/deactivate" → r.method ≠ "POST" →
      (serve s db r).resp
        = some ⟨404, [.text "404 not found, method not supported.\n"]⟩) ∧
    (r.path ≠ "/list" → r.path ≠ "/deactivate" →
      (serve s db r).resp = some ⟨404, [.text "404 page not found\n"]⟩) := by
  refine ⟨fun h1 h2 => ?_, fun h1 h2 => ?_, fun h1 h2 => ?_⟩ <;>
    simp [serve, listHandler, deactivateHandler, h1, h2]

/-- C8 witness: `GET /unknown` receives the mux's plain-text 404. -/
theorem claim8_witness :
    (serve initState dbEmpty ⟨"/unknown", "GET", []⟩).resp
      = some ⟨404, [.text "404 page not found\n"]⟩ :=
  (claim8_not_found initState dbEmpty ⟨"/unknown", "GET", []⟩).2.2
    (by decide) (by decide)

end DynamoServer
